import Mathlib

/-!
Verification of the two-stage caption pipeline (Composer agent + Poster agent).

The embedding models the per-document Firestore state as `Option CaptionDoc`:
every store operation in the source is a single-document transaction keyed by
`doc_id`, so the state relevant to any one operation is the document at that
key (absent = `none`).  Firestore server timestamps (`created_at`,
`updated_at`, `posted_at`, `signed_url_expires`) are store-maintained metadata
that no decision in the code reads; they are omitted from the model.
Timestamps used for the lock TTL are modelled as integers (seconds).
External collaborators (the generative model, HTTP publishing call, base64
envelope decoding, credential fetch) are modelled as explicit parameters
describing their outcome.
-/

namespace BakersAgent

/-- Source: bakers-agent-v1 `MAX_REACT_ROUNDS = 3`. -/
def MAX_REACT_ROUNDS : Nat := 3

/-- Source: bakers-poster-v1 `LOCK_TTL_SECONDS = 120`. -/
def LOCK_TTL_SECONDS : Int := 120

/-- Source: bakers-poster-v1 `TERMINAL_STATUSES = frozenset({"POSTED", "FAILED"})`. -/
def TERMINAL_STATUSES : List String := ["POSTED", "FAILED"]

/-- Source: bakers-poster-v1 `post_to_gbp`:
`retryable = resp.status_code in (429, 500, 502, 503, 504)`. -/
def RETRYABLE_CODES : List Nat := [429, 500, 502, 503, 504]

/-- A Firestore document in the `captions` collection.  Fields written by
`claim_document`, `update_status` (at its three call sites), and the poster
lock operations.  Fields a document may lack are `Option`. -/
structure CaptionDoc where
  doc_id : String
  bucket : String
  filename : String
  status : String
  draft : Option String
  image_url : Option String
  lock_token : Option String
  locked_at : Option Int
  failure_reason : Option String
  gbp_post_name : Option String
deriving Repr, DecidableEq

/-- The document written by a successful claim (bakers-agent-v1
`claim_document`: `transaction.set(doc_ref, {doc_id, bucket, filename,
status: "RECEIVED", created_at})`). -/
def newClaimDoc (doc_id bucket filename : String) : CaptionDoc :=
  { doc_id := doc_id, bucket := bucket, filename := filename,
    status := "RECEIVED", draft := none, image_url := none,
    lock_token := none, locked_at := none,
    failure_reason := none, gbp_post_name := none }

/-- bakers-agent-v1 `claim_document`.  Inside a transaction: if the snapshot
exists return `False` with no write, else create the `RECEIVED` document and
return `True`.  `txOk = false` models the `except Exception` path: any
transaction failure is caught and surfaced as `False` (the function never
raises); the transaction rolls back, so the store is unchanged. -/
def claim_document (txOk : Bool) (st : Option CaptionDoc)
    (doc_id bucket filename : String) : Bool × Option CaptionDoc :=
  if txOk then
    match st with
    | some snap => (false, some snap)
    | none => (true, some (newClaimDoc doc_id bucket filename))
  else
    (false, st)

/-- bakers-agent-v1 `update_status(doc_id, "GENERATING")`, called in
`process_upload` immediately after a successful claim (the document this
invocation just created is in status `RECEIVED`). -/
def mark_generating (d : CaptionDoc) : CaptionDoc :=
  { d with status := "GENERATING" }

/-- bakers-agent-v1 `update_status(doc_id, "QUEUED", draft=..., image_url=...,
signed_url_expires=...)`, called in `process_upload` on the document the
invocation is generating for (status `GENERATING`). -/
def mark_queued (d : CaptionDoc) (draft image_url : String) : CaptionDoc :=
  { d with status := "QUEUED", draft := some draft, image_url := some image_url }

/-- bakers-agent-v1 `update_status(doc_id, "FAILED", failure_reason=...)`,
called in `process_upload` when generation exhausts all rounds (status
`GENERATING`) or when the `try` block raises (status `GENERATING` or, if the
Pub/Sub publish raises, `QUEUED`). -/
def mark_failed (d : CaptionDoc) (reason : String) : CaptionDoc :=
  { d with status := "FAILED", failure_reason := some reason }

/-- bakers-poster-v1 `acquire_posting_lock`, inner TTL test: a `POSTING`
document is skipped only when it has a `locked_at` and
`now - locked_at < LOCK_TTL_SECONDS`; a missing `locked_at` falls through to
the reclaim path. -/
def lockStillFresh (locked_at : Option Int) (now : Int) : Bool :=
  match locked_at with
  | some la => now - la < LOCK_TTL_SECONDS
  | none => false

/-- bakers-poster-v1 `acquire_posting_lock`.  `fresh_token` models
`str(uuid.uuid4())`, `now` models `datetime.datetime.utcnow()`.  Inside one
transaction: absent document, terminal status, fresh `POSTING` lock, or a
status other than `QUEUED`/`POSTING` all return `None` with no write;
otherwise write `status="POSTING", lock_token, locked_at=now` and return the
token.  (The `except Exception` wrapper returns `None` with the transaction
rolled back — same shape as the rejection outcomes.) -/
def acquire_posting_lock (st : Option CaptionDoc) (now : Int)
    (fresh_token : String) : Option String × Option CaptionDoc :=
  match st with
  | none => (none, none)
  | some data =>
    if data.status ∈ TERMINAL_STATUSES then
      (none, some data)
    else if data.status = "POSTING" ∧ lockStillFresh data.locked_at now then
      (none, some data)
    else if data.status ≠ "QUEUED" ∧ data.status ≠ "POSTING" then
      (none, some data)
    else
      (some fresh_token,
        some { data with status := "POSTING",
                         lock_token := some fresh_token,
                         locked_at := some now })

/-- bakers-poster-v1 `release_lock_success`.  Inside one transaction: absent
document or `data.get("lock_token") != lock_token` returns `False` with no
write; otherwise write `status="POSTED", gbp_post_name` and delete the
`lock_token`/`locked_at` fields, returning `True`. -/
def release_lock_success (st : Option CaptionDoc) (lock_token : String)
    (post_name : String) : Bool × Option CaptionDoc :=
  match st with
  | none => (false, none)
  | some data =>
    if data.lock_token ≠ some lock_token then
      (false, some data)
    else
      (true, some { data with status := "POSTED",
                              gbp_post_name := some post_name,
                              lock_token := none, locked_at := none })

/-- bakers-poster-v1 `release_lock_failure`.  Same token check; on a match
write `status="FAILED", failure_reason` and delete `lock_token`/`locked_at`. -/
def release_lock_failure (st : Option CaptionDoc) (lock_token : String)
    (reason : String) : Bool × Option CaptionDoc :=
  match st with
  | none => (false, none)
  | some data =>
    if data.lock_token ≠ some lock_token then
      (false, some data)
    else
      (true, some { data with status := "FAILED",
                              failure_reason := some reason,
                              lock_token := none, locked_at := none })

/-! ### Sentinel (structured-output validation), bakers-agent-v1 -/

/-- Python `str.strip()`: drop leading and trailing whitespace. -/
def pyStrip (s : String) : String :=
  String.mk
    (((s.toList.dropWhile Char.isWhitespace).reverse.dropWhile
        Char.isWhitespace).reverse)

/-- Python `str.lower()` (the captions are ASCII; `Char.toLower` lowers the
ASCII range). -/
def pyLower (s : String) : String := String.mk (s.toList.map Char.toLower)

/-- Word accumulator for `pyWords`: walk the characters, breaking words at
whitespace runs and discarding empty pieces. -/
def splitWordsAux : List Char → List Char → List String
  | [], acc => if acc.isEmpty then [] else [String.mk acc.reverse]
  | c :: cs, acc =>
    if c.isWhitespace then
      if acc.isEmpty then splitWordsAux cs []
      else String.mk acc.reverse :: splitWordsAux cs []
    else splitWordsAux cs (c :: acc)

/-- Python `str.split()` with no argument: split on whitespace runs,
discarding empty pieces.  Used by `sentinel_check` for the independent word
count. -/
def pyWords (s : String) : List String := splitWordsAux s.toList []

/-- Match a fixed character sequence at the head of the input, returning the
remainder. -/
def dropLit : List Char → List Char → Option (List Char)
  | [], cs => some cs
  | _ :: _, [] => none
  | l :: ls, c :: cs => if c = l then dropLit ls cs else none

/-- Regex alternative matching at the current position, bakers-agent-v1
`sentinel_check` price pattern, first branch: dollar sign, optional
whitespace, one or more digits. -/
def tryDollarAmount (cs : List Char) : Option (List Char) :=
  match cs with
  | '$' :: rest =>
    let ws := rest.takeWhile Char.isWhitespace
    let r1 := rest.dropWhile Char.isWhitespace
    let ds := r1.takeWhile Char.isDigit
    if ds.isEmpty then none else some ('$' :: (ws ++ ds))
  | _ => none

/-- Second branch: one or more digits, optional whitespace, percent sign. -/
def tryPercentAmount (cs : List Char) : Option (List Char) :=
  let ds := cs.takeWhile Char.isDigit
  if ds.isEmpty then none
  else
    let r1 := cs.dropWhile Char.isDigit
    let ws := r1.takeWhile Char.isWhitespace
    let r2 := r1.dropWhile Char.isWhitespace
    match r2 with
    | '%' :: _ => some (ds ++ ws ++ ['%'])
    | _ => none

/-- Two literal words separated by one-or-more whitespace, covering the
branches with an embedded whitespace class in the price pattern. -/
def tryWordPair (a b : String) (cs : List Char) : Option (List Char) :=
  match dropLit a.toList cs with
  | none => none
  | some r1 =>
    let ws := r1.takeWhile Char.isWhitespace
    if ws.isEmpty then none
    else
      match dropLit b.toList (r1.dropWhile Char.isWhitespace) with
      | none => none
      | some _ => some (a.toList ++ ws ++ b.toList)

/-- A plain literal alternative of the price pattern. -/
def tryLiteral (a : String) (cs : List Char) : Option (List Char) :=
  match dropLit a.toList cs with
  | none => none
  | some _ => some a.toList

/-- The price-pattern alternatives in the order they appear in the source
regex; the first alternative that matches at this position wins. -/
def tryPricePatternsAt (cs : List Char) : Option (List Char) :=
  tryDollarAmount cs <|> tryPercentAmount cs <|>
  tryWordPair "percent" "off" cs <|> tryLiteral "discount" cs <|>
  tryWordPair "sale" "price" cs <|> tryWordPair "free" "delivery" cs <|>
  tryLiteral "promo" cs <|> tryLiteral "coupon" cs

/-- `re.search`: try each position left to right, return the first match. -/
def searchPriceFrom : List Char → Option (List Char)
  | [] => none
  | c :: rest =>
    match tryPricePatternsAt (c :: rest) with
    | some m => some m
    | none => searchPriceFrom rest

/-- bakers-agent-v1 `sentinel_check` price regex search over the lowercased
caption, returning the matched substring. -/
def price_pattern_search (s : String) : Option String :=
  (searchPriceFrom s.toList).map fun l => String.mk l

/-- The decoded structured output of one generation round (the JSON object
described by `CAPTION_SCHEMA`); fields of a parsed Python dict may be
absent. -/
structure Parsed where
  caption : Option String
  word_count : Option Int
  contains_price : Option Bool
deriving Repr, DecidableEq

/-- bakers-agent-v1 `sentinel_check`.  Layer 1 trusts the self-reported
`contains_price` flag as a fast reject; layer 2 independently recomputes the
word count from the caption text and scans for price patterns. -/
def sentinel_check (parsed : Parsed) : Bool × String :=
  let caption := pyStrip (parsed.caption.getD "")
  let contains_price := parsed.contains_price.getD false
  if caption = "" then (false, "EMPTY_CAPTION")
  else if contains_price then (false, "PRICE_SELF_REPORTED")
  else
    let actual_words := (pyWords caption).length
    if actual_words > 40 then
      (false, "TOO_LONG (" ++ toString actual_words ++ " words)")
    else if actual_words < 5 then
      (false, "TOO_SHORT (" ++ toString actual_words ++ " words)")
    else
      match price_pattern_search (pyLower caption) with
      | some m => (false, "PRICE_DETECTED: \x27" ++ m ++ "\x27")
      | none => (true, "APPROVED")

/-! ### ReAct generation loop, bakers-agent-v1 -/

/-- Outcome of one call to the external generator
(`model.generate_content`): the call raised, the response text failed JSON
decoding, or it decoded to a candidate dict. -/
inductive GenOutcome where
  | genFailure
  | badJSON
  | candidate (parsed : Parsed)
deriving Repr, DecidableEq

/-- Critique appended to the prompt after a JSON decode failure
(bakers-agent-v1 `generate_with_react`). -/
def badJSONCritique : String :=
  "\n\nCRITIC: Your last response was not valid JSON. You MUST return a JSON object with caption, word_count, and contains_price fields. Try again."

/-- Critique appended to the prompt after a sentinel rejection
(bakers-agent-v1 `generate_with_react`). -/
def rejectionCritique (reason caption : String) : String :=
  "\n\nCRITIC: Your draft was rejected. Reason: " ++ reason ++
  ". The rejected draft was: \"" ++ caption ++
  "\" Fix the issue and generate a new caption."

/-- The `for attempt in range(MAX_REACT_ROUNDS)` loop of
`generate_with_react`.  `gen` models the external generator, indexed by the
attempt number and the prompt in force for that attempt (the real model is
nondeterministic across calls).  Returns the approved caption (or `none`)
together with the number of generator calls performed.  A generator
exception consumes a round without touching the prompt; a decode failure and
a sentinel rejection consume a round and append their critique; an approved
candidate returns `parsed["caption"]` immediately. -/
def reactRounds (gen : Nat → String → GenOutcome) :
    Nat → Nat → String → Option String × Nat
  | 0, _, _ => (none, 0)
  | n + 1, attempt, prompt =>
    match gen attempt prompt with
    | .genFailure =>
      let r := reactRounds gen n (attempt + 1) prompt
      (r.1, r.2 + 1)
    | .badJSON =>
      let r := reactRounds gen n (attempt + 1) (prompt ++ badJSONCritique)
      (r.1, r.2 + 1)
    | .candidate parsed =>
      let check := sentinel_check parsed
      if check.1 then (some (parsed.caption.getD ""), 1)
      else
        let r := reactRounds gen n (attempt + 1)
          (prompt ++ rejectionCritique check.2 (parsed.caption.getD ""))
        (r.1, r.2 + 1)

/-- bakers-agent-v1 `generate_with_react`.  `mime_type` is the result of the
`get_mime_type(filename)` gate (the `mimetypes` table is external);
`basePrompt` is the prompt assembled from the policy rules and the
best-effort memory fetch.  A `None` mime type returns `None` before any
generator call; otherwise the bounded loop runs. -/
def generate_with_react (mime_type : Option String)
    (gen : Nat → String → GenOutcome) (basePrompt : String) :
    Option String × Nat :=
  match mime_type with
  | none => (none, 0)
  | some _ => reactRounds gen MAX_REACT_ROUNDS 0 basePrompt

/-! ### Error classification and publish call, bakers-poster-v1 -/

/-- Does `needle` occur as a contiguous substring of the character list? -/
def containsSub (needle : List Char) : List Char → Bool
  | [] => needle.isEmpty
  | c :: cs => (dropLit needle (c :: cs)).isSome || containsSub needle cs

/-- bakers-poster-v1 `classify_error` `permanent_markers`. -/
def permanent_markers : List String :=
  ["invalid_grant", "unauthorized", "permission_denied",
   "not_found", "invalid_argument", "no refresh_token"]

/-- bakers-poster-v1 `classify_error`: a marker substring in the lowercased
message means `PERMANENT`, everything else defaults to `TRANSIENT`. -/
def classify_error (msg : String) : String :=
  if permanent_markers.any
      (fun m => containsSub m.toList (pyLower msg).toList) then
    "PERMANENT"
  else
    "TRANSIENT"

/-- Outcome of the external publishing HTTP call (and the credential fetch
preceding it) inside `post_to_gbp`: request timeout, connection error, an
HTTP response with a status code and body (for a 200 response, the body
stands for the returned post name), or an exception escaping from
`get_credentials`/request machinery, tagged with whether it is a Python
`RuntimeError`. -/
inductive PostOutcome where
  | timeout
  | connError (msg : String)
  | httpResp (status_code : Nat) (body : String)
  | exn (isRuntimeError : Bool) (msg : String)
deriving Repr, DecidableEq

/-- The result dict of bakers-poster-v1 `post_to_gbp`:
`{"success": True, "post_name": ...}` or
`{"success": False, "error": ..., "status_code": ..., "retryable": ...}`. -/
inductive GbpResult where
  | posted (post_name : String)
  | gbpError (error : String) (status_code : Nat) (retryable : Bool)
deriving Repr, DecidableEq

/-- bakers-poster-v1 `post_to_gbp`.  Config errors short-circuit to a
non-retryable error dict before any network call; a timeout or connection
error yields a retryable error dict with status code 0; a 200 response
succeeds; any other status code is retryable exactly when it is in
`RETRYABLE_CODES`.  `Except.error` models an exception propagating out of
the function (it has no internal handler for the credential fetch). -/
def post_to_gbp (configErrors : List String) (outcome : PostOutcome) :
    Except (Bool × String) GbpResult :=
  if configErrors ≠ [] then
    .ok (.gbpError ("Config errors: " ++ String.intercalate "; " configErrors) 0 false)
  else
    match outcome with
    | .exn rt msg => .error (rt, msg)
    | .timeout => .ok (.gbpError "GBP API request timed out (60s)" 0 true)
    | .connError msg => .ok (.gbpError ("Connection error: " ++ msg) 0 true)
    | .httpResp code body =>
      if code = 200 then .ok (.posted body)
      else .ok (.gbpError body code (RETRYABLE_CODES.contains code))

/-! ### Publisher message handler, bakers-poster-v1 -/

/-- How `process_post_queue` terminates: a normal return acknowledges the
Pub/Sub message; a raised exception requests redelivery. -/
inductive HandlerOutcome where
  | ack
  | reraise (msg : String)
deriving Repr, DecidableEq

/-- A message published to the dead-letter topic by `send_to_dlq`
(timestamp and source-stage fields omitted as metadata). -/
structure DlqMsg where
  doc_id : String
  filename : String
  reason : String
deriving Repr, DecidableEq

/-- Result of one `process_post_queue` invocation: how it terminated, the
final document state, and the dead-letter messages it sent. -/
structure HandlerResult where
  outcome : HandlerOutcome
  final : Option CaptionDoc
  dlq : List DlqMsg
deriving Repr, DecidableEq

/-- bakers-poster-v1 `process_post_queue`.  `doc_id` is the decoded Pub/Sub
payload (the base64 envelope decode is external; a malformed payload acks
before reaching this logic, as does the empty payload modelled here).
`st` is the document at `doc_id`, `dry_run` the `DRY_RUN` flag, `now` and
`fresh_token` the clock and UUID used by the lock acquisition,
`configErrors` the `validate_config()` result, and `post` the outcome of
the external publish call.  Paths:
missing/incomplete document → ack (with a dead-letter message when
incomplete); lock not acquired → ack; dry run → mark posted, ack;
publish success → release success, ack; retryable publish error → raise
without releasing; permanent publish error → release failure + dead-letter,
ack; escaped exception → re-raise if `RuntimeError`, else classify:
transient re-raises, permanent releases failure + dead-letters. -/
def process_post_queue (doc_id : String) (st : Option CaptionDoc)
    (dry_run : Bool) (now : Int) (fresh_token : String)
    (configErrors : List String) (post : PostOutcome) : HandlerResult :=
  if doc_id = "" then ⟨.ack, st, []⟩
  else
    match st with
    | none => ⟨.ack, none, []⟩
    | some doc =>
      let draft := doc.draft.getD ""
      let image_url := doc.image_url.getD ""
      if draft = "" ∨ image_url = "" then
        ⟨.ack, some doc, [⟨doc_id, doc.filename, "INCOMPLETE_DOCUMENT"⟩]⟩
      else
        match acquire_posting_lock (some doc) now fresh_token with
        | (none, st1) => ⟨.ack, st1, []⟩
        | (some lock_token, st1) =>
          if dry_run then
            ⟨.ack, (release_lock_success st1 lock_token "DRY_RUN").2, []⟩
          else
            match post_to_gbp configErrors post with
            | .ok (.posted post_name) =>
              ⟨.ack, (release_lock_success st1 lock_token post_name).2, []⟩
            | .ok (.gbpError e code true) =>
              ⟨.reraise ("Retryable GBP error (" ++ toString code ++ "): " ++ e),
               st1, []⟩
            | .ok (.gbpError e _ false) =>
              ⟨.ack,
               (release_lock_failure st1 lock_token ("GBP_PERMANENT: " ++ e)).2,
               [⟨doc_id, doc.filename, "GBP_PERMANENT: " ++ e⟩]⟩
            | .error (isRuntimeError, msg) =>
              if isRuntimeError then
                ⟨.reraise msg, st1, []⟩
              else if classify_error msg = "TRANSIENT" then
                ⟨.reraise msg, st1, []⟩
              else
                ⟨.ack,
                 (release_lock_failure st1 lock_token ("EXCEPTION: " ++ msg)).2,
                 [⟨doc_id, doc.filename, "EXCEPTION: " ++ msg⟩]⟩

/-! ### Reachable document states -/

/-- The per-document states reachable through the protocol operations:
the atomic claim, the Composer status updates at their `process_upload`
call sites (each annotated with the status the document has at that point
in program order), and the Poster lock operations with arbitrary clocks
and tokens. -/
inductive Reachable : Option CaptionDoc → Prop where
  | init : Reachable none
  | claimStep (txOk : Bool) (st : Option CaptionDoc) (d b f : String) :
      Reachable st → Reachable (claim_document txOk st d b f).2
  | generatingStep (d : CaptionDoc) :
      Reachable (some d) → d.status = "RECEIVED" →
      Reachable (some (mark_generating d))
  | queuedStep (d : CaptionDoc) (draft image_url : String) :
      Reachable (some d) → d.status = "GENERATING" →
      Reachable (some (mark_queued d draft image_url))
  | failedStep (d : CaptionDoc) (reason : String) :
      Reachable (some d) →
      d.status = "GENERATING" ∨ d.status = "QUEUED" →
      Reachable (some (mark_failed d reason))
  | acquireStep (st : Option CaptionDoc) (now : Int) (tok : String) :
      Reachable st → Reachable (acquire_posting_lock st now tok).2
  | releaseSuccessStep (st : Option CaptionDoc) (tok name : String) :
      Reachable st → Reachable (release_lock_success st tok name).2
  | releaseFailureStep (st : Option CaptionDoc) (tok reason : String) :
      Reachable st → Reachable (release_lock_failure st tok reason).2

/-- The lock-field invariant: `lock_token` and `locked_at` are present
exactly on `POSTING` documents. -/
def LockInv : Option CaptionDoc → Prop
  | none => True
  | some d =>
    (d.lock_token.isSome ↔ d.status = "POSTING") ∧
    (d.locked_at.isSome ↔ d.status = "POSTING")

/-! ### Concrete documents and generators used to instantiate the theorems -/

/-- A queued document ready for posting. -/
def sampleQueuedDoc : CaptionDoc :=
  { doc_id := "doc1", bucket := "cakes", filename := "cake.jpg",
    status := "QUEUED", draft := some "Golden crust with a soft crumb",
    image_url := some "https://example/signed", lock_token := none,
    locked_at := none, failure_reason := none, gbp_post_name := none }

/-- A document already posted (terminal). -/
def samplePostedDoc : CaptionDoc :=
  { sampleQueuedDoc with
    status := "POSTED",
    gbp_post_name := some "accounts/a/locations/l/localPosts/p" }

/-- A document mid-post, holding a lock taken at time 100. -/
def samplePostingDoc : CaptionDoc :=
  { sampleQueuedDoc with
    status := "POSTING", lock_token := some "tokA", locked_at := some 100 }

/-- A `POSTING` document whose `locked_at` field is missing. -/
def samplePostingNoClock : CaptionDoc :=
  { sampleQueuedDoc with status := "POSTING", lock_token := some "tokA" }

/-- A queued document that lost its draft field. -/
def sampleNoDraftDoc : CaptionDoc := { sampleQueuedDoc with draft := none }

/-- A generator whose every response decodes to an empty caption, which the
sentinel always rejects. -/
def rejectAllGen : Nat → String → GenOutcome :=
  fun _ _ => .candidate { caption := some "", word_count := none, contains_price := none }

/-- A 41-word caption, over the 40-word bound. -/
def longCaption : String := String.intercalate " " (List.replicate 41 "crumb")

/-! ### Claim theorems -/

/-- Claim C1: `claim_document` against a store with no record at the id
creates a `RECEIVED` record carrying the given metadata and returns `true`;
against a store already holding a record it returns `false` and leaves the
stored record unmodified; and a failed transaction surfaces as a `false`
return (a non-claim) rather than a raise. -/
theorem C1_claim_first_writer_wins (d b f : String) :
    (claim_document true none d b f = (true, some (newClaimDoc d b f)) ∧
      (newClaimDoc d b f).status = "RECEIVED" ∧
      (newClaimDoc d b f).doc_id = d ∧ (newClaimDoc d b f).bucket = b ∧
      (newClaimDoc d b f).filename = f) ∧
    (∀ snap : CaptionDoc, claim_document true (some snap) d b f = (false, some snap)) ∧
    (∀ st : Option CaptionDoc, claim_document false st d b f = (false, st)) := by
  exact ⟨⟨rfl, rfl, rfl, rfl, rfl⟩, fun snap => rfl, fun st => rfl⟩

/-- Claim C2: `acquire_posting_lock` follows the decision table — `none` on
an absent record, a terminal record, a `POSTING` record with a fresh lock,
or any status other than `QUEUED`/`POSTING`; on a `QUEUED` record or a
`POSTING` record whose lock age has reached the TTL it writes
`status="POSTING"` with the fresh token and `locked_at = now` and returns
the token. -/
theorem C2_acquire_lock_decision_table (now : Int) (tok : String) :
    acquire_posting_lock none now tok = (none, none) ∧
    (∀ d : CaptionDoc, d.status = "POSTED" ∨ d.status = "FAILED" →
      acquire_posting_lock (some d) now tok = (none, some d)) ∧
    (∀ (d : CaptionDoc) (la : Int), d.status = "POSTING" →
      d.locked_at = some la → now - la < LOCK_TTL_SECONDS →
      acquire_posting_lock (some d) now tok = (none, some d)) ∧
    (∀ d : CaptionDoc,
      d.status ≠ "QUEUED" → d.status ≠ "POSTING" →
      d.status ≠ "POSTED" → d.status ≠ "FAILED" →
      acquire_posting_lock (some d) now tok = (none, some d)) ∧
    (∀ d : CaptionDoc, d.status = "QUEUED" →
      acquire_posting_lock (some d) now tok =
        (some tok, some { d with status := "POSTING",
                                 lock_token := some tok,
                                 locked_at := some now })) ∧
    (∀ (d : CaptionDoc) (la : Int), d.status = "POSTING" →
      d.locked_at = some la → LOCK_TTL_SECONDS ≤ now - la →
      acquire_posting_lock (some d) now tok =
        (some tok, some { d with status := "POSTING",
                                 lock_token := some tok,
                                 locked_at := some now })) := by
  refine ⟨rfl, ?_, ?_, ?_, ?_, ?_⟩
  · intro d h
    simp [acquire_posting_lock, TERMINAL_STATUSES, h]
  · intro d la hs hla hfresh
    simp [acquire_posting_lock, TERMINAL_STATUSES, hs, lockStillFresh, hla, hfresh]
  · intro d h1 h2 h3 h4
    simp [acquire_posting_lock, TERMINAL_STATUSES, lockStillFresh, h1, h2, h3, h4]
  · intro d h
    simp [acquire_posting_lock, TERMINAL_STATUSES, lockStillFresh, h]
  · intro d la hs hla hstale
    have : ¬ (now - la < LOCK_TTL_SECONDS) := by omega
    simp [acquire_posting_lock, TERMINAL_STATUSES, hs, lockStillFresh, hla, this]

/-- Claim C3: a release presenting a token different from the stored
`lock_token` returns `false` and leaves the record unchanged (for both the
success and the failure release); and after a successful release has
cleared the token, repeating the release with the now-stale token returns
`false` without mutating the record. -/
theorem C3_release_stale_token_noop (d : CaptionDoc) (t name reason : String) :
    (d.lock_token ≠ some t →
      release_lock_success (some d) t name = (false, some d) ∧
      release_lock_failure (some d) t reason = (false, some d)) ∧
    (d.lock_token = some t →
      ∃ d2 : CaptionDoc,
        release_lock_success (some d) t name = (true, some d2) ∧
        d2.lock_token = none ∧
        release_lock_success (some d2) t name = (false, some d2) ∧
        release_lock_failure (some d2) t reason = (false, some d2)) := by
  constructor
  · intro h
    constructor
    · simp [release_lock_success, h]
    · simp [release_lock_failure, h]
  · intro h
    have hrel : release_lock_success (some d) t name =
        (true, some { d with status := "POSTED", gbp_post_name := some name, lock_token := none, locked_at := none }) := by
      simp [release_lock_success, h]
    exact ⟨_, hrel, rfl, by simp [release_lock_success], by simp [release_lock_failure]⟩

/-- Claim C4: a terminal record (status `POSTED` or `FAILED`, which by the
lock invariant stores no `lock_token`) is left unchanged by every
subsequent protocol operation: the claim observes it and returns `false`,
`acquire_posting_lock` returns `none`, and both releases return `false`
because no token can match. -/
theorem C4_terminal_is_frozen (d : CaptionDoc)
    (hterm : d.status ∈ TERMINAL_STATUSES) (htok : d.lock_token = none)
    (did b f : String) (now : Int) (tok t name reason : String) :
    claim_document true (some d) did b f = (false, some d) ∧
    acquire_posting_lock (some d) now tok = (none, some d) ∧
    release_lock_success (some d) t name = (false, some d) ∧
    release_lock_failure (some d) t reason = (false, some d) := by
  refine ⟨rfl, ?_, ?_, ?_⟩
  · simp [acquire_posting_lock, hterm]
  · simp [release_lock_success, htok]
  · simp [release_lock_failure, htok]

/-- Claim C9: a `POSTING` record with no stored `locked_at` is treated as
immediately reclaimable: for every clock value `now` (no TTL comparison is
possible), `acquire_posting_lock` overwrites `lock_token` and `locked_at`
and returns the fresh token. -/
theorem C9_missing_lockedAt_reclaims (d : CaptionDoc) (now : Int) (tok : String)
    (hs : d.status = "POSTING") (hla : d.locked_at = none) :
    acquire_posting_lock (some d) now tok =
      (some tok, some { d with status := "POSTING",
                               lock_token := some tok,
                               locked_at := some now }) := by
  simp [acquire_posting_lock, TERMINAL_STATUSES, hs, lockStillFresh, hla]

/-- Claim C5: in every document state reachable through the claim, the
Composer status updates, `acquire_posting_lock`, and the two releases, the
`lock_token` field (and likewise `locked_at`) is present if and only if the
status is `POSTING`. -/
theorem C5_lock_fields_iff_posting (st : Option CaptionDoc)
    (h : Reachable st) : LockInv st := by
  induction h with
  | init => trivial
  | claimStep txOk st d b f _ ih =>
    cases txOk with
    | false => simpa [claim_document] using ih
    | true =>
      cases st with
      | none => simp [claim_document, LockInv, newClaimDoc]
      | some snap => simpa [claim_document] using ih
  | generatingStep d _ hs ih =>
    simp only [LockInv] at ih ⊢
    rw [hs] at ih
    simp [mark_generating] at ih ⊢
    exact ih
  | queuedStep d draft image_url _ hs ih =>
    simp only [LockInv] at ih ⊢
    rw [hs] at ih
    simp [mark_queued] at ih ⊢
    exact ih
  | failedStep d reason _ hs ih =>
    simp only [LockInv] at ih ⊢
    rcases hs with hs | hs <;> rw [hs] at ih <;>
      simp [mark_failed] at ih ⊢ <;> exact ih
  | acquireStep st now tok _ ih =>
    cases st with
    | none => simp [acquire_posting_lock, LockInv]
    | some data =>
      by_cases h1 : data.status ∈ TERMINAL_STATUSES
      · simpa [acquire_posting_lock, h1] using ih
      · by_cases h2 : data.status = "POSTING" ∧ lockStillFresh data.locked_at now
        · simpa [acquire_posting_lock, h1, h2] using ih
        · by_cases h3 : data.status ≠ "QUEUED" ∧ data.status ≠ "POSTING"
          · simpa [acquire_posting_lock, h1, h2, h3] using ih
          · simp [acquire_posting_lock, h1, h2, h3, LockInv]
  | releaseSuccessStep st tok name _ ih =>
    cases st with
    | none => simp [release_lock_success, LockInv]
    | some data =>
      by_cases h : data.lock_token = some tok
      · simp [release_lock_success, h, LockInv]
      · simpa [release_lock_success, h] using ih
  | releaseFailureStep st tok reason _ ih =>
    cases st with
    | none => simp [release_lock_failure, LockInv]
    | some data =>
      by_cases h : data.lock_token = some tok
      · simp [release_lock_failure, h, LockInv]
      · simpa [release_lock_failure, h] using ih

/-- The loop never performs more generator calls than it has rounds left. -/
theorem reactRounds_count_le (gen : Nat → String → GenOutcome) :
    ∀ (n i : Nat) (prompt : String), (reactRounds gen n i prompt).2 ≤ n := by
  intro n
  induction n with
  | zero => intro i prompt; simp [reactRounds]
  | succ n ih =>
    intro i prompt
    cases hg : gen i prompt with
    | genFailure =>
      simpa [reactRounds, hg] using Nat.succ_le_succ (ih (i + 1) prompt)
    | badJSON =>
      simpa [reactRounds, hg] using Nat.succ_le_succ (ih (i + 1) _)
    | candidate p =>
      by_cases hp : (sentinel_check p).1
      · simp [reactRounds, hg, hp]
      · simpa [reactRounds, hg, hp] using Nat.succ_le_succ (ih (i + 1) _)

/-- If every decoded candidate the generator ever produces is rejected by
the sentinel, the loop consumes all its rounds, performing one generator
call per round, and returns `none`. -/
theorem reactRounds_all_rejected (gen : Nat → String → GenOutcome)
    (hrej : ∀ (i : Nat) (prompt : String) (p : Parsed),
      gen i prompt = .candidate p → (sentinel_check p).1 = false) :
    ∀ (n i : Nat) (prompt : String), reactRounds gen n i prompt = (none, n) := by
  intro n
  induction n with
  | zero => intro i prompt; simp [reactRounds]
  | succ n ih =>
    intro i prompt
    cases hg : gen i prompt with
    | genFailure => simp [reactRounds, hg, ih]
    | badJSON => simp [reactRounds, hg, ih]
    | candidate p =>
      have := hrej i prompt p hg
      simp [reactRounds, hg, this, ih]

/-- Claim C7: the generation loop runs at most `MAX_REACT_ROUNDS = 3`
rounds; a round whose decoded candidate passes the sentinel returns that
candidate at once, with the single generator call of that round and no further
ones; and against a sentinel that rejects every candidate the loop performs
exactly `MAX_REACT_ROUNDS` generator calls and returns `none`. -/
theorem C7_react_loop_bounds (mt : String)
    (gen : Nat → String → GenOutcome) (prompt : String) :
    MAX_REACT_ROUNDS = 3 ∧
    (generate_with_react (some mt) gen prompt).2 ≤ MAX_REACT_ROUNDS ∧
    (∀ (n i : Nat) (pr : String) (p : Parsed),
      gen i pr = .candidate p → (sentinel_check p).1 = true →
      reactRounds gen (n + 1) i pr = (some (p.caption.getD ""), 1)) ∧
    ((∀ (i : Nat) (pr : String) (p : Parsed),
        gen i pr = .candidate p → (sentinel_check p).1 = false) →
      generate_with_react (some mt) gen prompt = (none, MAX_REACT_ROUNDS)) := by
  refine ⟨rfl, ?_, ?_, ?_⟩
  · exact reactRounds_count_le gen MAX_REACT_ROUNDS 0 prompt
  · intro n i pr p hg hp
    simp [reactRounds, hg, hp]
  · intro hrej
    exact reactRounds_all_rejected gen hrej MAX_REACT_ROUNDS 0 prompt

/-- Claim C8: a candidate whose independently recomputed word count (the
trimmed caption split on whitespace) exceeds 40 is rejected with a
`TOO_LONG` reason carrying the actual count, regardless of the
self-reported `word_count` field, provided the self-reported price flag
claims compliance (a `True` flag is itself a rejection). -/
theorem C8_independent_word_count_wins (p : Parsed)
    (hwc : 40 < (pyWords (pyStrip (p.caption.getD ""))).length)
    (hsp : p.contains_price.getD false = false) :
    sentinel_check p =
      (false, "TOO_LONG (" ++
        toString (pyWords (pyStrip (p.caption.getD ""))).length ++ " words)") := by
  have hne : pyStrip (p.caption.getD "") ≠ "" := by
    intro h
    rw [h] at hwc
    have : pyWords "" = [] := by decide
    rw [this] at hwc
    simp at hwc
  simp [sentinel_check, hne, hsp, hwc]

/-- Claim C6: when the publishing call fails retryably (HTTP 429, 500, 502,
503 or 504, a timeout, or a connection failure), the handler raises to
request redelivery without releasing: the final record has status `POSTING`
with the acquired `lock_token` and `locked_at` intact, no dead-letter
message is sent, and `POSTING` is not a terminal status. -/
theorem C6_retryable_publish_keeps_lock (doc : CaptionDoc) (doc_id : String)
    (now : Int) (tok : String) (post : PostOutcome)
    (hid : doc_id ≠ "")
    (hdraft : doc.draft.getD "" ≠ "") (himg : doc.image_url.getD "" ≠ "")
    (hq : doc.status = "QUEUED")
    (hretry : post = .timeout ∨ (∃ m, post = .connError m) ∨
      (∃ c b, post = .httpResp c b ∧ c ∈ RETRYABLE_CODES)) :
    (process_post_queue doc_id (some doc) false now tok [] post).final =
      some { doc with status := "POSTING", lock_token := some tok,
                      locked_at := some now } ∧
    (process_post_queue doc_id (some doc) false now tok [] post).dlq = [] ∧
    (∃ msg, (process_post_queue doc_id (some doc) false now tok [] post).outcome
      = .reraise msg) ∧
    "POSTING" ∉ TERMINAL_STATUSES := by
  have hacq : acquire_posting_lock (some doc) now tok =
      (some tok, some { doc with status := "POSTING", lock_token := some tok, locked_at := some now }) := by
    simp [acquire_posting_lock, TERMINAL_STATUSES, lockStillFresh, hq]
  rcases hretry with rfl | ⟨m, rfl⟩ | ⟨c, b, rfl, hc⟩
  · refine ⟨?_, ?_, ?_, by decide⟩ <;>
      simp [process_post_queue, hid, hdraft, himg, hacq, post_to_gbp]
  · refine ⟨?_, ?_, ?_, by decide⟩ <;>
      simp [process_post_queue, hid, hdraft, himg, hacq, post_to_gbp]
  · fin_cases hc <;>
      (refine ⟨?_, ?_, ?_, by decide⟩ <;>
        simp [process_post_queue, hid, hdraft, himg, hacq, post_to_gbp,
              RETRYABLE_CODES])

/-- Claim C10: when the document referenced by the consumed pointer exists
but is missing its draft content or its image URL, the handler sends an
`INCOMPLETE_DOCUMENT` message to the dead-letter sink and returns normally
(acknowledging the message), leaving the record unchanged. -/
theorem C10_incomplete_doc_dead_letters (doc : CaptionDoc) (doc_id : String)
    (dry : Bool) (now : Int) (tok : String) (cfg : List String)
    (post : PostOutcome) (hid : doc_id ≠ "")
    (h : doc.draft.getD "" = "" ∨ doc.image_url.getD "" = "") :
    process_post_queue doc_id (some doc) dry now tok cfg post =
      ⟨.ack, some doc, [⟨doc_id, doc.filename, "INCOMPLETE_DOCUMENT"⟩]⟩ := by
  rcases h with h | h <;> simp [process_post_queue, hid, h]

/-! ### Witnesses -/

/-- Witness for C2: acquiring the lock on a concrete queued document. -/
theorem C2_witness :
    acquire_posting_lock (some sampleQueuedDoc) 1000 "tokB" =
      (some "tokB", some { sampleQueuedDoc with status := "POSTING", lock_token := some "tokB", locked_at := some 1000 }) :=
  (C2_acquire_lock_decision_table 1000 "tokB").2.2.2.2.1 sampleQueuedDoc rfl

/-- Witness for C3: a wrong token is rejected on a concrete locked
document. -/
theorem C3_witness :
    release_lock_success (some samplePostingDoc) "tokZ" "p" = (false, some samplePostingDoc) ∧
    release_lock_failure (some samplePostingDoc) "tokZ" "r" = (false, some samplePostingDoc) :=
  (C3_release_stale_token_noop samplePostingDoc "tokZ" "p" "r").1 (by decide)

/-- Witness for C4: every protocol operation leaves a concrete posted
document unchanged. -/
theorem C4_witness :
    claim_document true (some samplePostedDoc) "doc1" "cakes" "cake.jpg" = (false, some samplePostedDoc) ∧
    acquire_posting_lock (some samplePostedDoc) 1000 "tokB" = (none, some samplePostedDoc) ∧
    release_lock_success (some samplePostedDoc) "tokA" "p" = (false, some samplePostedDoc) ∧
    release_lock_failure (some samplePostedDoc) "tokA" "r" = (false, some samplePostedDoc) :=
  C4_terminal_is_frozen samplePostedDoc (by decide) rfl
    "doc1" "cakes" "cake.jpg" 1000 "tokB" "tokA" "p" "r"

/-- Witness for C5: the invariant holds of the state produced by a concrete
claim. -/
theorem C5_witness : LockInv (claim_document true none "d" "b" "f").2 :=
  C5_lock_fields_iff_posting _
    (Reachable.claimStep true none "d" "b" "f" Reachable.init)

/-- Witness for C6: a 503 response on a concrete queued document re-raises
and keeps the lock. -/
theorem C6_witness :
    (process_post_queue "doc1" (some sampleQueuedDoc) false 1000 "tokB" []
        (.httpResp 503 "unavailable")).final =
      some { sampleQueuedDoc with status := "POSTING", lock_token := some "tokB", locked_at := some 1000 } ∧
    (process_post_queue "doc1" (some sampleQueuedDoc) false 1000 "tokB" []
        (.httpResp 503 "unavailable")).dlq = [] ∧
    (∃ msg, (process_post_queue "doc1" (some sampleQueuedDoc) false 1000 "tokB" []
        (.httpResp 503 "unavailable")).outcome = .reraise msg) ∧
    "POSTING" ∉ TERMINAL_STATUSES :=
  C6_retryable_publish_keeps_lock sampleQueuedDoc "doc1" 1000 "tokB"
    (.httpResp 503 "unavailable") (by decide) (by decide) (by decide) rfl
    (Or.inr (Or.inr ⟨503, "unavailable", rfl, by decide⟩))

/-- Witness for C7: the loop against the always-rejected generator returns
`none` after exactly three generator calls. -/
theorem C7_witness :
    generate_with_react (some "image/jpeg") rejectAllGen "prompt" =
      (none, MAX_REACT_ROUNDS) := by
  apply (C7_react_loop_bounds "image/jpeg" rejectAllGen "prompt").2.2.2
  intro i pr p hp
  injection hp with h
  subst h
  decide

/-- Witness for C8: a candidate with a 41-word caption and compliant
self-report fields is rejected as too long. -/
theorem C8_witness :
    sentinel_check { caption := some longCaption, word_count := some 20, contains_price := some false } =
      (false, "TOO_LONG (41 words)") := by
  have h := C8_independent_word_count_wins
    { caption := some longCaption, word_count := some 20, contains_price := some false }
    (by decide) rfl
  rw [h]
  decide

/-- Witness for C9: a concrete `POSTING` document without `locked_at` is
reclaimed. -/
theorem C9_witness :
    acquire_posting_lock (some samplePostingNoClock) 5 "tokB" =
      (some "tokB", some { samplePostingNoClock with status := "POSTING", lock_token := some "tokB", locked_at := some 5 }) :=
  C9_missing_lockedAt_reclaims samplePostingNoClock 5 "tokB" rfl rfl

/-- Witness for C10: a concrete document missing its draft is dead-lettered
and acknowledged unchanged. -/
theorem C10_witness :
    process_post_queue "doc1" (some sampleNoDraftDoc) false 1000 "tokB" []
        (.httpResp 200 "ok") =
      ⟨.ack, some sampleNoDraftDoc, [⟨"doc1", "cake.jpg", "INCOMPLETE_DOCUMENT"⟩]⟩ :=
  C10_incomplete_doc_dead_letters sampleNoDraftDoc "doc1" false 1000 "tokB" []
    (.httpResp 200 "ok") (by decide) (Or.inl rfl)

end BakersAgent
